import Mathlib

/-!
Shallow embedding of `src/generate_shipping_table.py` (Total Express shipping
table generator) and proofs about the claims of its specification.

Conventions of the embedding:
* Python non-negative `int` values (CEPs, weights in grams) are `Nat`;
  Python `//` on non-negative ints is `Nat` division (floor).
* Monetary cost is `Rat` (a decimal currency amount).
* Fallible operations return `Option`; a caught exception is `none`.
* Network and file-system nondeterminism is passed in explicitly as an
  outcome parameter (one outcome per call occurrence).
-/

set_option autoImplicit false
set_option maxRecDepth 8192

namespace ShippingTable

/-- `ShippingResult` dataclass (source lines 50-59): the result of one
shipping cost query, one row of the eventual table. -/
structure ShippingResult where
  cep_start : Nat
  cep_end : Nat
  weight_start : Nat
  weight_end : Nat
  cost : Rat
  delivery_days : Int
  service_type : String

/-- The dictionary returned by `calculate_shipping_cost` on success
(source lines 136-140): cost (after comma-to-dot conversion) and
delivery days. The constant `success: True` field is omitted. -/
structure ApiResult where
  cost : Rat
  delivery_days : Int

/-- Outcome of the HTTP GET for the WSDL in `get_wsdl` (source lines 84-92):
either a response body (after `raise_for_status` succeeded) or an exception
(transport failure or a non-2xx status), which the method catches. -/
inductive HttpOutcome where
  | ok (body : String)
  | failure

/-- `get_wsdl` (source lines 84-92): returns the WSDL text, or `None` when
the GET or `raise_for_status` raised. -/
def get_wsdl : HttpOutcome → Option String
  | HttpOutcome.ok body => some body
  | HttpOutcome.failure => none

/-- The `DadosFrete` payload of a SOAP response (source lines 135-138).
`valorServico` models the outcome of `float(str(...).replace(",", "."))`
on the raw `ValorServico` field and `prazo` the outcome of `int(...)` on
the raw `Prazo` field: `none` means the Python conversion raises
(malformed payload), which the surrounding `try` catches. -/
structure FreteData where
  valorServico : Option Rat
  prazo : Option Int

/-- Outcome of the SOAP interaction inside the `try` block of
`calculate_shipping_cost` (source lines 115-146): either an exception
before a result object exists (zeep client construction or transport
failure), or a result object with an optional `CodigoProc` attribute and
an optional `DadosFrete` attribute (`hasattr` checks in the source). -/
inductive SoapOutcome where
  | exn
  | result (codigoProc : Option Int) (dadosFrete : Option FreteData)

/-- `calculate_shipping_cost` (source lines 94-146). First fetches the
WSDL; the Python guard `if not wsdl_content` is falsy both for `None`
and for the empty string. Then, inside a `try` that catches every
exception and returns `None`, makes the SOAP call and accepts the
response only when `CodigoProc == 1` and `DadosFrete` is present and its
two fields convert. -/
def calculate_shipping_cost (w : HttpOutcome) (s : SoapOutcome) : Option ApiResult :=
  match get_wsdl w with
  | none => none
  | some body =>
    if body = "" then none
    else
      match s with
      | SoapOutcome.exn => none
      | SoapOutcome.result codigoProc dadosFrete =>
        if codigoProc = some 1 then
          match dadosFrete with
          | some d =>
            match d.valorServico, d.prazo with
            | some c, some p => some { cost := c, delivery_days := p }
            | _, _ => none
          | none => none
        else none

/-- `generate_cep_ranges` (source lines 154-187): the fixed list of
Brazilian CEP ranges, reproduced verbatim in source order. -/
def generate_cep_ranges : List (Nat × Nat) :=
  [ (1000000, 1999999),
    (2000000, 2899999),
    (2900000, 2999999),
    (3000000, 3999999),
    (4000000, 4899999),
    (4900000, 4999999),
    (5000000, 5699999),
    (5700000, 5799999),
    (5800000, 5899999),
    (5900000, 5999999),
    (6000000, 6399999),
    (6400000, 6499999),
    (6500000, 6599999),
    (6600000, 6889999),
    (6890000, 6899999),
    (7000000, 7279999),
    (7280000, 7679999),
    (7680000, 7699999),
    (6990000, 6999999),
    (7800000, 7889999),
    (7900000, 7999999),
    (8000000, 8799999),
    (8800000, 8999999),
    (9000000, 9999999),
    (7700000, 7799999),
    (6930000, 6939999) ]

/-- `generate_weight_ranges` (source lines 189-206): the fixed list of
weight ranges in grams. -/
def generate_weight_ranges : List (Nat × Nat) :=
  [ (1, 250),
    (251, 500),
    (501, 750),
    (751, 1000),
    (1001, 2000),
    (2001, 3000),
    (3001, 4000),
    (4001, 5000),
    (5001, 6000),
    (6001, 7000),
    (7001, 8000),
    (8001, 9000),
    (9001, 10000) ]

/-- `format_weight_for_api` (source lines 208-211): computes
`weight_kg = weight_grams / 1000.0` but then returns the literal string
`".2f"` (the f-string prefix is missing in the source), for every input. -/
def format_weight_for_api (weight_grams : Nat) : String :=
  ".2f"

/-- `format_cep_for_api` (source lines 213-215): returns the literal
string `"08d"` (the f-string prefix is missing in the source), for every
input. -/
def format_cep_for_api (cep : Nat) : String :=
  "08d"

/-- The representative CEP of a band, `test_cep` (source line 246):
`cep_start + (cep_end - cep_start) // 2`. -/
def test_cep (cep_start cep_end : Nat) : Nat :=
  cep_start + (cep_end - cep_start) / 2

/-- The representative weight of a band, `test_weight` (source line 252):
`(weight_start + weight_end) // 2`. -/
def test_weight (weight_start weight_end : Nat) : Nat :=
  (weight_start + weight_end) / 2

/-- Construction of a `ShippingResult` on API success
(source lines 274-283). -/
def mk_result (service_type : String) (cep_band weight_band : Nat × Nat)
    (r : ApiResult) : ShippingResult :=
  { cep_start := cep_band.1
    cep_end := cep_band.2
    weight_start := weight_band.1
    weight_end := weight_band.2
    cost := r.cost
    delivery_days := r.delivery_days
    service_type := service_type }

/-- The body of one loop iteration of `generate_table`
(source lines 270-287): make the API call for the current band pair and
append a row to the accumulated `results` exactly when it returns a
result; on `None` only a warning is logged and the list is unchanged. -/
def loop_step (service_type : String)
    (oracle : Nat × Nat → Nat × Nat → Option ApiResult)
    (c w : Nat × Nat) (acc : List ShippingResult) : List ShippingResult :=
  match oracle c w with
  | some r => acc ++ [mk_result service_type c w r]
  | none => acc

/-- The nested loop of `generate_table` (source lines 243-290): outer loop
over CEP bands, inner loop over weight bands, `loop_step` per iteration.
The remote call outcome for the iteration with bands `(c, w)` is supplied
by `oracle c w` (each band pair occurs exactly once, so this indexes the
call occurrences). -/
def generate_table_rows (service_type : String)
    (oracle : Nat × Nat → Nat × Nat → Option ApiResult) : List ShippingResult :=
  generate_cep_ranges.foldl
    (fun acc c =>
      generate_weight_ranges.foldl
        (fun acc2 w => loop_step service_type oracle c w acc2)
        acc)
    []

/-- The cross product of CEP bands and weight bands in iteration order:
CEP bands outermost, weight bands innermost. -/
def all_band_pairs : List ((Nat × Nat) × (Nat × Nat)) :=
  generate_cep_ranges.flatMap (fun c => generate_weight_ranges.map (fun w => (c, w)))

/-- The band bounds recorded in a row, in the pair form of
`all_band_pairs`. -/
def row_bands (r : ShippingResult) : (Nat × Nat) × (Nat × Nat) :=
  ((r.cep_start, r.cep_end), (r.weight_start, r.weight_end))

/-- The CSV header written by `write_csv` (source lines 299-303). -/
def csv_header : String :=
  "ZipCodeStart,ZipCodeEnd,WeightStart,WeightEnd,AbsoluteMoneyCost,TimeCost"

/-- One CSV data line written by `write_csv` (source lines 305-313): the
four band bounds and the delivery days as plain integers, and the literal
string `".2f"` in the `AbsoluteMoneyCost` column (the f-string prefix is
missing in the source, so `result.cost` is not used). -/
def render_row (r : ShippingResult) : String :=
  toString r.cep_start ++ "," ++ toString r.cep_end ++ ","
    ++ toString r.weight_start ++ "," ++ toString r.weight_end ++ ","
    ++ ".2f" ++ "," ++ toString r.delivery_days

/-- The lines of the file produced by `write_csv` (source lines 296-313):
the header, then one line per result in input order. -/
def write_csv_lines (results : List ShippingResult) : List String :=
  csv_header :: results.map render_row

/-- Outcome of the file-system operations of `write_csv` (the `open` for
writing, source line 298): success, or an OS error, which nothing in the
source catches. -/
inductive FsOutcome where
  | ok
  | ioError (msg : String)

/-- `write_csv` (source lines 296-313) including its file-system effect:
on a writable destination it produces the header plus one line per
result; an I/O error propagates (there is no `try` around it). -/
def write_csv (results : List ShippingResult) (fs : FsOutcome) :
    Except String (List String) :=
  match fs with
  | FsOutcome.ok => Except.ok (write_csv_lines results)
  | FsOutcome.ioError m => Except.error m

/-- `generate_table` (source lines 217-294): runs the query loop, then
hands the accumulated rows to `write_csv`. Client failures are absorbed
inside the loop; a file-system error in `write_csv` propagates out of
`generate_table` uncaught. -/
def generate_table (service_type : String)
    (oracle : Nat × Nat → Nat × Nat → Option ApiResult)
    (fs : FsOutcome) : Except String (List String) :=
  write_csv (generate_table_rows service_type oracle) fs

/-- The credential handling of `main` (source lines 315-343), up to the
point where remote calls could happen: `os.getenv` with defaults
`your_username` / `your_password`, then `sys.exit(1)` when either equals
its default. Returns the process exit code requested before generation
(`some 1` on abort, `none` when `main` proceeds) paired with the number
of remote pricing calls made (0 on the abort path, which precedes the
API client construction; 338 per table for two tables otherwise). -/
def main_trace (user pw : Option String) : Option Nat × Nat :=
  let username := user.getD "your_username"
  let password := pw.getD "your_password"
  if username = "your_username" ∨ password = "your_password" then
    (some 1, 0)
  else
    (none, 2 * all_band_pairs.length)

/-- A stub pricing client that always succeeds with cost 10.00 and 5
delivery days. -/
def stub_oracle : Nat × Nat → Nat × Nat → Option ApiResult :=
  fun _ _ => some { cost := 10, delivery_days := 5 }

/-! ### Helper lemmas about the generation loop -/

lemma loop_step_none {oracle : Nat × Nat → Nat × Nat → Option ApiResult}
    {c w : Nat × Nat} (st : String) (acc : List ShippingResult)
    (h : oracle c w = none) : loop_step st oracle c w acc = acc := by
  simp [loop_step, h]

lemma loop_step_some {oracle : Nat × Nat → Nat × Nat → Option ApiResult}
    {c w : Nat × Nat} {r : ApiResult} (st : String) (acc : List ShippingResult)
    (h : oracle c w = some r) :
    loop_step st oracle c w acc = acc ++ [mk_result st c w r] := by
  simp [loop_step, h]

lemma inner_foldl_eq (st : String)
    (oracle : Nat × Nat → Nat × Nat → Option ApiResult) (c : Nat × Nat) :
    ∀ (ws : List (Nat × Nat)) (acc : List ShippingResult),
      ws.foldl (fun acc2 w => loop_step st oracle c w acc2) acc
        = acc ++ ws.filterMap (fun w => (oracle c w).map (mk_result st c w)) := by
  intro ws
  induction ws with
  | nil => intro acc; simp
  | cons w ws ih =>
    intro acc
    rw [List.foldl_cons]
    cases h : oracle c w with
    | none =>
      rw [loop_step_none st acc h, ih, List.filterMap_cons]
      simp [h]
    | some r =>
      rw [loop_step_some st acc h, ih, List.filterMap_cons]
      simp [h, List.append_assoc]

lemma outer_foldl_eq (st : String)
    (oracle : Nat × Nat → Nat × Nat → Option ApiResult) :
    ∀ (cs : List (Nat × Nat)) (acc : List ShippingResult),
      cs.foldl
          (fun a c =>
            generate_weight_ranges.foldl
              (fun a2 w => loop_step st oracle c w a2) a)
          acc
        = acc ++ cs.flatMap
            (fun c => generate_weight_ranges.filterMap
              (fun w => (oracle c w).map (mk_result st c w))) := by
  intro cs
  induction cs with
  | nil => intro acc; simp
  | cons c cs ih =>
    intro acc
    rw [List.foldl_cons, inner_foldl_eq st oracle c, ih, List.flatMap_cons,
      List.append_assoc]

lemma flatMap_map_filterMap {α β γ : Type} (l : List α) (m : List β)
    (f : α × β → Option γ) :
    (l.flatMap fun c => m.filterMap (fun w => f (c, w)))
      = (l.flatMap fun c => m.map fun w => (c, w)).filterMap f := by
  induction l with
  | nil => rfl
  | cons c l ih =>
    simp only [List.flatMap_cons, List.filterMap_append, List.filterMap_map,
      Function.comp_def]
    rw [ih]

lemma generate_table_rows_eq (st : String)
    (oracle : Nat × Nat → Nat × Nat → Option ApiResult) :
    generate_table_rows st oracle
      = all_band_pairs.filterMap
          (fun p => (oracle p.1 p.2).map (mk_result st p.1 p.2)) := by
  unfold generate_table_rows all_band_pairs
  rw [outer_foldl_eq st oracle, List.nil_append]
  exact flatMap_map_filterMap generate_cep_ranges generate_weight_ranges
    (fun p => (oracle p.1 p.2).map (mk_result st p.1 p.2))

lemma filterMap_length_of_isSome {α β : Type} (f : α → Option β) :
    ∀ l : List α, (∀ a ∈ l, (f a).isSome) →
      (l.filterMap f).length = l.length := by
  intro l
  induction l with
  | nil => intro _; rfl
  | cons a l ih =>
    intro h
    obtain ⟨b, hb⟩ := Option.isSome_iff_exists.mp (h a (List.mem_cons_self a l))
    simp [List.filterMap_cons, hb,
      ih (fun x hx => h x (List.mem_cons_of_mem a hx))]

lemma map_filterMap_id {α β : Type} (f : α → Option β) (g : β → α) :
    ∀ l : List α,
      (∀ a ∈ l, ∀ b, f a = some b → g b = a) →
      (∀ a ∈ l, (f a).isSome) →
      (l.filterMap f).map g = l := by
  intro l
  induction l with
  | nil => intro _ _; rfl
  | cons a l ih =>
    intro h1 h2
    obtain ⟨b, hb⟩ := Option.isSome_iff_exists.mp (h2 a (List.mem_cons_self a l))
    simp [List.filterMap_cons, hb, h1 a (List.mem_cons_self a l) b hb,
      ih (fun x hx bb hbb => h1 x (List.mem_cons_of_mem a hx) bb hbb)
        (fun x hx => h2 x (List.mem_cons_of_mem a hx))]

/-! ### Claims -/

/-- C1: the claim says the `AbsoluteMoneyCost` field of every written row
is the row's cost rendered with exactly two fraction digits (cost 12.5 as
`12.50`). The code instead writes the literal string `.2f` in that column
for every row — the format-spec text, not the formatted cost — so a row
with cost 12.5 is rendered with `.2f`, not `12.50`. -/
theorem render_row_writes_literal_format_spec :
    render_row
        { cep_start := 1000000, cep_end := 1999999, weight_start := 1,
          weight_end := 250, cost := (25 : Rat) / 2, delivery_days := 5,
          service_type := "STD" }
      = "1000000,1999999,1,250,.2f,5"
    ∧ render_row
        { cep_start := 1000000, cep_end := 1999999, weight_start := 1,
          weight_end := 250, cost := (25 : Rat) / 2, delivery_days := 5,
          service_type := "STD" }
      ≠ "1000000,1999999,1,250,12.50,5" := by
  constructor
  · rfl
  · decide

/-- C2: the claim says the CEP formatter zero-pads to 8 digits
(1000000 formats to `01000000`) and the weight formatter renders kilograms
with two decimals. The code returns the literal format-spec strings `08d`
and `.2f` for every input. -/
theorem format_for_api_returns_literal_format_specs :
    format_cep_for_api 1000000 = "08d"
    ∧ format_cep_for_api 1000000 ≠ "01000000"
    ∧ format_weight_for_api 125 = ".2f"
    ∧ format_weight_for_api 125 ≠ "0.13" := by
  refine ⟨rfl, ?_, rfl, ?_⟩ <;> decide

/-- C3: if the pricing client succeeds on every query, the generated table
has exactly 26 × 13 = 338 rows, each row's zip and weight bounds are the
band pair that produced it in outer-postal/inner-weight order, and the
written file has 339 lines counting the header. -/
theorem generate_table_all_success_rows (st : String)
    (oracle : Nat × Nat → Nat × Nat → Option ApiResult)
    (h : ∀ c w, (oracle c w).isSome) :
    (generate_table_rows st oracle).length = 338
    ∧ (generate_table_rows st oracle).map row_bands = all_band_pairs
    ∧ (write_csv_lines (generate_table_rows st oracle)).length = 339 := by
  have he := generate_table_rows_eq st oracle
  have hall : ∀ p ∈ all_band_pairs,
      ((oracle p.1 p.2).map (mk_result st p.1 p.2)).isSome := by
    intro p _
    have hp := h p.1 p.2
    cases hh : oracle p.1 p.2 <;> simp [hh] at hp ⊢
  have hlen : (generate_table_rows st oracle).length = 338 := by
    rw [he, filterMap_length_of_isSome _ all_band_pairs hall]
    rfl
  refine ⟨hlen, ?_, ?_⟩
  · rw [he]
    refine map_filterMap_id _ row_bands all_band_pairs ?_ hall
    intro p _ b hb
    rcases Option.map_eq_some'.mp hb with ⟨r, _, rfl⟩
    simp [row_bands, mk_result]
  · simp [write_csv_lines, hlen]

/-- Witness for C3 at the stub client that always succeeds with cost 10
and 5 delivery days. -/
theorem generate_table_all_success_rows_witness :
    (generate_table_rows "STD" stub_oracle).length = 338
    ∧ (generate_table_rows "STD" stub_oracle).map row_bands = all_band_pairs
    ∧ (write_csv_lines (generate_table_rows "STD" stub_oracle)).length = 339 :=
  generate_table_all_success_rows "STD" stub_oracle (fun _ _ => rfl)

/-- C4: the pricing client returns a result exactly when the WSDL was
fetched (and non-empty, by the Python truthiness check), no exception was
raised, the response status `CodigoProc` is 1, and the `DadosFrete`
payload is present with both fields convertible; every failure path —
transport failure, WSDL fetch failure, malformed payload, non-success
status — yields `none`, and the function is total, so no exception
reaches the caller. -/
theorem calculate_shipping_cost_some_iff (w : HttpOutcome) (s : SoapOutcome) :
    (calculate_shipping_cost w s).isSome = true ↔
      ((∃ body, w = HttpOutcome.ok body ∧ body ≠ "")
        ∧ ∃ d, s = SoapOutcome.result (some 1) (some d)
            ∧ d.valorServico.isSome ∧ d.prazo.isSome) := by
  cases w with
  | failure => simp [calculate_shipping_cost, get_wsdl]
  | ok body =>
    by_cases hb : body = ""
    · subst hb
      simp [calculate_shipping_cost, get_wsdl]
    · cases s with
      | exn => simp [calculate_shipping_cost, get_wsdl, hb]
      | result codigoProc dadosFrete =>
        by_cases hcp : codigoProc = some 1
        · subst hcp
          cases dadosFrete with
          | none => simp [calculate_shipping_cost, get_wsdl, hb]
          | some d =>
            cases hv : d.valorServico <;> cases hp : d.prazo <;>
              simp [calculate_shipping_cost, get_wsdl, hb, hv, hp]
        · simp [calculate_shipping_cost, get_wsdl, hb, hcp]

/-- C5: for every behavior of the pricing client, the final row list is
exactly the rows of the successful queries in iteration order — a query
whose call returns `none` contributes no row and the loop continues. -/
theorem generate_table_rows_drop_failed (st : String)
    (oracle : Nat × Nat → Nat × Nat → Option ApiResult) :
    generate_table_rows st oracle
      = all_band_pairs.filterMap
          (fun p => (oracle p.1 p.2).map (mk_result st p.1 p.2)) :=
  generate_table_rows_eq st oracle

/-- C6: for every CEP band and every weight band, the representative
value used to build the query equals `start + (end - start) / 2` with
floor division, although the source computes the weight one as
`(start + end) // 2`. -/
theorem representative_values_floor_midpoint :
    (generate_cep_ranges.all
        (fun b => test_cep b.1 b.2 == b.1 + (b.2 - b.1) / 2)) = true
    ∧ (generate_weight_ranges.all
        (fun b => test_weight b.1 b.2 == b.1 + (b.2 - b.1) / 2)) = true := by
  decide

/-- C7: the range enumerator returns a fixed list of exactly 26 CEP bands
and 13 weight bands, the weight bands run from 1 g to 10000 g, and every
band of both lists satisfies `end ≥ start`. -/
theorem range_enumerator_fixed_bands :
    generate_cep_ranges.length = 26
    ∧ generate_weight_ranges.length = 13
    ∧ (generate_cep_ranges.all (fun b => decide (b.1 ≤ b.2))) = true
    ∧ (generate_weight_ranges.all (fun b => decide (b.1 ≤ b.2))) = true
    ∧ generate_weight_ranges.head? = some (1, 250)
    ∧ generate_weight_ranges.getLast? = some (9001, 10000)
    ∧ (generate_weight_ranges.all
        (fun b => decide (1 ≤ b.1 ∧ b.2 ≤ 10000))) = true := by
  decide

/-- C8, counterexample: a credential set to the empty string is not
detected by the placeholder check (`os.getenv` returns the empty value,
which differs from the default), so `main` does not abort and proceeds to
make remote calls — refuting the claim for the "empty" case. -/
theorem empty_credential_does_not_abort :
    (main_trace (some "") (some "hunter2")).1 = none
    ∧ (main_trace (some "") (some "hunter2")).2 ≠ 0 := by
  decide

/-- C8, amended: when either credential is absent or equals its
placeholder default (`your_username` / `your_password`), `main` exits
with code 1 having made zero remote calls. -/
theorem credentials_absent_or_placeholder_abort (user pw : Option String)
    (h : user = none ∨ user = some "your_username"
      ∨ pw = none ∨ pw = some "your_password") :
    main_trace user pw = (some 1, 0) := by
  rcases h with h | h | h | h <;> subst h <;> simp [main_trace]

/-- Witness for the amended C8 at an absent username. -/
theorem credentials_absent_or_placeholder_abort_witness :
    main_trace none (some "hunter2") = (some 1, 0) :=
  credentials_absent_or_placeholder_abort none (some "hunter2") (Or.inl rfl)

/-- C9, counterexample: an output I/O error is not caught anywhere in
`generate_table`, so it propagates to the caller — refuting the claim
that `generate` never raises for every behavior of the file system. -/
theorem generate_table_propagates_io_error :
    generate_table "STD" stub_oracle (FsOutcome.ioError "disk full")
      = Except.error "disk full" := rfl

/-- C9, amended: `generate_table` raises exactly when the output file
cannot be written; no behavior of the pricing client alone makes it
raise. -/
theorem generate_table_error_iff_fs_error (st : String)
    (oracle : Nat × Nat → Nat × Nat → Option ApiResult) (fs : FsOutcome) :
    (∃ e, generate_table st oracle fs = Except.error e)
      ↔ fs ≠ FsOutcome.ok := by
  cases fs <;> simp [generate_table, write_csv]

/-- C10: called with an empty row list, the writer still produces a file
whose content is exactly the fixed header line and nothing else. -/
theorem write_csv_empty_rows_header_only :
    write_csv [] FsOutcome.ok
      = Except.ok
          ["ZipCodeStart,ZipCodeEnd,WeightStart,WeightEnd,AbsoluteMoneyCost,TimeCost"] :=
  rfl

end ShippingTable
